import Mathlib

/-!
Shallow embedding of `slitflow/fig/figure.py`: the `Figure` data class,
the `ToTiff` converter (`set_info`, `process`) and the module-level
`get_stack` rasterization helper.

Python values carried in parameter dictionaries and metadata records are
modelled by the inductive `Value`; Python dictionaries by association lists;
Python exceptions by `Except String`.  All numeric arithmetic is modelled
over `Rat` (the code's float arithmetic, taken exactly).
-/

/-- A Python value as it appears in parameter dictionaries: `None`, a number,
a string, or a list. -/
inductive Value where
  | pynone : Value
  | num : Rat → Value
  | str : String → Value
  | vlist : List Value → Value

/-- Python truthiness, as used by `if limit and size and length_unit:`:
`None` is falsy, a number is truthy iff nonzero, a string iff nonempty,
a list iff nonempty. -/
def Value.truthy : Value → Bool
  | .pynone => false
  | .num q => q != 0
  | .str s => s != ""
  | .vlist l => !l.isEmpty

/-- Python `v is None`. -/
def Value.isNone : Value → Bool
  | .pynone => true
  | _ => false

/-- Python indexing `v[i]`: succeeds on a list with `i` in range, raises
`IndexError` past the end and `TypeError` on a non-list. -/
def pyindex : Value → Nat → Except String Value
  | .vlist l, i =>
    match l.get? i with
    | some v => .ok v
    | none => .error "IndexError"
  | _, _ => .error "TypeError"

/-- Coercion of a Python value to a number for arithmetic; non-numbers raise
`TypeError`. -/
def toRat : Value → Except String Rat
  | .num q => .ok q
  | _ => .error "TypeError"

/-- Python division: raises `ZeroDivisionError` on a zero divisor, otherwise
divides. -/
def pydiv (a b : Rat) : Except String Rat :=
  if b = 0 then .error "ZeroDivisionError" else .ok (a / b)

/-- A Python dict with string keys, as an association list (keys unique by
construction of the operations below). -/
def PDict := List (String × Value)

/-- Dict lookup returning `Option`. -/
def dict_find : PDict → String → Option Value
  | [], _ => none
  | (k, v) :: rest, key => if k = key then some v else dict_find rest key

/-- Dict item assignment `d[k] = v`: overwrites an existing key, otherwise
appends. -/
def dict_set : PDict → String → Value → PDict
  | [], k, v => [(k, v)]
  | (k2, v2) :: rest, k, v =>
    if k2 = k then (k2, v) :: rest else (k2, v2) :: dict_set rest k v

/-- Python `d[k]` read access: `KeyError` when the key is absent. -/
def getItem (d : PDict) (k : String) : Except String Value :=
  match dict_find d k with
  | some v => .ok v
  | none => .error "KeyError"

/-- `d[k]` when the key is known to be present (defaults to `None`). -/
def dict_getD (d : PDict) (k : String) : Value :=
  (dict_find d k).getD Value.pynone

/-- One parameter entry of an `Info` metadata record: name, value, type tag
and human-readable description. -/
structure ParamEntry where
  name : String
  value : Value
  ty : Value
  desc : String

/-- Modelled from the spec: the metadata/requirement-chain record carried
between pipeline stages (class `Info` of `slitflow.info`, not under `src/`).
It holds a list of parameter entries and a split-depth directive. -/
structure Info where
  params : List ParamEntry
  split_depth : Option Value

/-- Modelled from the spec: `Info.copy_req(0)` copies all inherited
parameters verbatim from requirement 0. -/
def Info.copy_req (req : List ParamEntry) : Info :=
  { params := req, split_depth := none }

/-- Modelled from the spec: `Info.add_param` inserts a parameter entry
(name, value, type tag, description) into the metadata record. -/
def Info.add_param (info : Info) (n : String) (v : Value) (t : Value)
    (d : String) : Info :=
  { info with params := info.params ++ [⟨n, v, t, d⟩] }

/-- First entry with the given name, if any. -/
def Info.get_param : List ParamEntry → String → Option ParamEntry
  | [], _ => none
  | e :: rest, n => if e.name = n then some e else Info.get_param rest n

/-- Modelled from the spec: `Info.get_param_value` returns the value of the
named parameter, or `None` when the parameter is absent (the spec's silent
degrade path for missing calibration inputs). -/
def Info.get_param_value (info : Info) (n : String) : Value :=
  match Info.get_param info.params n with
  | some e => e.value
  | none => Value.pynone

/-- Modelled from the spec: `Info.set_split_depth` stores the split-depth
directive. -/
def Info.set_split_depth (info : Info) (v : Value) : Info :=
  { info with split_depth := some v }

/-- `ToTiff.set_info`, translated line by line from
`slitflow/fig/figure.py`.  `req` is the parameter list of `reqs[0]` copied
by `self.info.copy_req(0)`; `param` is the caller's parameter dict.  The
mutated `param` dict is returned alongside the resulting `Info` (the Python
code mutates the caller's dict in place, and its `param={}` default is a
single shared dict). -/
def ToTiff.set_info (req : List ParamEntry) (param : PDict) :
    Except String (Info × PDict) := do
  let info := Info.copy_req req
  -- if "dpi" not in param: param["dpi"] = 400
  let param := if (dict_find param "dpi").isNone then
      dict_set param "dpi" (.num 400)
    else param
  let dpiV ← getItem param "dpi"
  let info := info.add_param "dpi" dpiV (.str "int")
    "Dot per inch of figure image"
  -- use only x-axis for scale bar
  let limit := info.get_param_value "limit"
  let size := info.get_param_value "size"
  let length_unit := info.get_param_value "length_unit"
  let info ←
    if limit.truthy && size.truthy && length_unit.truthy then do
      -- pixel = size[0] / 2.54 * param["dpi"]
      let s0 ← toRat (← pyindex size 0)
      let dpiQ ← toRat dpiV
      let pixel := s0 / (254 / 100) * dpiQ
      -- if limit[0] is not None:
      let l0 ← pyindex limit 0
      if !l0.isNone then do
        -- pitch = (limit[1] - limit[0]) / pixel
        let l1q ← toRat (← pyindex limit 1)
        let l0q ← toRat l0
        let pitch ← pydiv (l1q - l0q) pixel
        pure (info.add_param "pitch" (.num pitch) length_unit
          "Pixel size of figure")
      else
        pure info
    else
      pure info
  let info := if (dict_find param "scalebar").isSome then
      info.add_param "scalebar" (dict_getD param "scalebar") (.str "list")
        "[length, left, bottom , line_width, line_color] of the scale bar"
    else info
  let sdV ← getItem param "split_depth"
  pure (info.set_split_depth sdV, param)

/-- Error of a computation, when it raised one. -/
def errorOf {α : Type} : Except String α → Option String
  | .error e => some e
  | .ok _ => none

/-- The pitch value recorded in the resulting metadata, when the call
succeeded and a numeric `pitch` entry is present. -/
def pitchValOf (r : Except String (Info × PDict)) : Option Rat :=
  match r with
  | .ok (i, _) =>
    match Info.get_param i.params "pitch" with
    | some e => match e.value with | .num q => some q | _ => none
    | none => none
  | .error _ => none

/-- Whether the resulting metadata contains a `pitch` entry at all. -/
def hasPitch (r : Except String (Info × PDict)) : Bool :=
  match r with
  | .ok (i, _) => (Info.get_param i.params "pitch").isSome
  | .error _ => false

/-- The `dpi` entry's value and type tag in the resulting metadata. -/
def dpiEntryOf (r : Except String (Info × PDict)) :
    Option (Value × Value) :=
  match r with
  | .ok (i, _) => (Info.get_param i.params "dpi").map fun e => (e.value, e.ty)
  | .error _ => none

/-- The mutated parameter dict returned by `set_info`. -/
def paramOut (r : Except String (Info × PDict)) : Option PDict :=
  match r with
  | .ok (_, p) => some p
  | .error _ => none

/-- Inherited parameter list carrying a 4-element `limit`, a 2-element
`size` and the length unit `"um"` (the shape exercised by the calibration
claims). -/
def req1 (l0 l1 s0 : Rat) : List ParamEntry :=
  [⟨"limit", .vlist [.num l0, .num l1, .num 0, .num 5], .str "list", "x"⟩,
   ⟨"size", .vlist [.num s0, .num 5], .str "list", "y"⟩,
   ⟨"length_unit", .str "um", .str "str", "z"⟩]

/-- Caller parameter dict with explicit `dpi` and `split_depth`. -/
def param1 (d sd : Rat) : PDict :=
  [("dpi", .num d), ("split_depth", .num sd)]

/-- Explicit result of `set_info` on the `req1`/`param1` family when the
pixel extent is nonzero: the inherited entries followed by the `dpi` and
`pitch` entries, split depth set. -/
def info1 (l0 l1 s0 d sd : Rat) : Info :=
  { params := req1 l0 l1 s0 ++
      [⟨"dpi", .num d, .str "int", "Dot per inch of figure image"⟩,
       ⟨"pitch", .num ((l1 - l0) / (s0 / (254 / 100) * d)), .str "um",
        "Pixel size of figure"⟩],
    split_depth := some (.num sd) }

/-- A number when present, Python `None` when absent. -/
def optNum : Option Rat → Value
  | some q => .num q
  | none => .pynone

/-- Inherited parameter family for the pitch-presence claim: `limit`,
`size` and `length_unit` are each present or absent, `limit[0]` is a number
or `None`, and the string value of `length_unit` is free. -/
def req6 (hasLimit hasSize : Bool) (olu : Option String) (ol0 : Option Rat) :
    List ParamEntry :=
  (if hasLimit then
    [⟨"limit", .vlist [optNum ol0, .num 10, .num 0, .num 5], .str "list", "x"⟩]
  else []) ++
  (if hasSize then
    [⟨"size", .vlist [.num (254 / 100), .num 5], .str "list", "y"⟩]
  else []) ++
  (match olu with
   | some u => [⟨"length_unit", .str u, .str "str", "z"⟩]
   | none => [])

/-- Inherited parameters in which `limit`, `size` and `length_unit` are all
present and `limit[0]` is a number, but `length_unit` is the empty string. -/
def req6ex : List ParamEntry :=
  [⟨"limit", .vlist [.num 0, .num 10, .num 0, .num 5], .str "list", "x"⟩,
   ⟨"size", .vlist [.num (254 / 100), .num 5], .str "list", "y"⟩,
   ⟨"length_unit", .str "", .str "str", "z"⟩]

/-- The rendering backend of a figure: the canvas's reported pixel width
and height, the figure's current dpi setting, and the backend's raw RGB
byte buffer as a function of the dpi (`canvas.draw()` followed by
`canvas.tostring_rgb()`). -/
structure Fig where
  width : Nat
  height : Nat
  dpi : Rat
  render : Rat → List Nat

/-- `fig.set_dpi(dpi)`. -/
def Fig.set_dpi (fig : Fig) (d : Rat) : Fig :=
  { fig with dpi := d }

/-- `fig.canvas.draw(); fig.canvas.tostring_rgb()`: the backend's raw RGB
byte buffer, row-major, at the figure's current dpi. -/
def Fig.tostring_rgb (fig : Fig) : List Nat :=
  fig.render fig.dpi

/-- `fig.canvas.get_width_height()`. -/
def Fig.get_width_height (fig : Fig) : Nat × Nat :=
  (fig.width, fig.height)

/-- One channel plane of the raw buffer reshaped to
`(height, width, 3)`: entry `(r, c)` is byte `(r*width + c)*3 + k` of the
row-major buffer (`fig_rgb.reshape(...)[:, :, k]`). -/
def channelPlane (buf : List Nat) (w h k : Nat) : List (List Nat) :=
  (List.range h).map fun r =>
    (List.range w).map fun c => buf.getD ((r * w + c) * 3 + k) 0

/-- `np.flipud`: reverse the row order of a 2-D array. -/
def flipud (m : List (List Nat)) : List (List Nat) :=
  m.reverse

/-- Module-level `get_stack`, translated from `slitflow/fig/figure.py`:
set the figure's dpi, redraw, take the raw RGB buffer, reshape it to
`(height, width, 3)`, and stack the vertically flipped R, G and B planes.
The mutated figure is returned alongside the stack (the Python code
mutates `fig` in place via `set_dpi`). -/
def get_stack (fig : Fig) (dpi : Rat) : Fig × List (List (List Nat)) :=
  let fig := fig.set_dpi dpi
  let fig_rgb := fig.tostring_rgb
  let wh := fig.get_width_height
  (fig,
   [flipud (channelPlane fig_rgb wh.1 wh.2 0),
    flipud (channelPlane fig_rgb wh.1 wh.2 1),
    flipud (channelPlane fig_rgb wh.1 wh.2 2)])

/-- A line artist as added by `axes[0].plot`: x data, y data, line width
and normalized RGB color. -/
structure Line where
  xdata : List Rat
  ydata : List Rat
  linewidth : Rat
  color : List Rat
  deriving DecidableEq

/-- A figure document as seen by `ToTiff.process`: its rendering backend
plus the line artists of its first axes object. -/
structure AxFig where
  raster : Fig
  artists : List Line

/-- `fig.axes[0].plot(x, y, linewidth=lw, color=c)`: appends one line
artist to the document. -/
def AxFig.plot (af : AxFig) (x y : List Rat) (lw : Rat) (c : List Rat) :
    AxFig :=
  { af with artists := af.artists ++ [⟨x, y, lw, c⟩] }

/-- Coercion of a Python value to a list of numbers
(`np.array(...)` over a numeric list); non-lists and non-numeric elements
raise `TypeError`. -/
def toRatList : Value → Except String (List Rat)
  | .vlist l => l.mapM toRat
  | _ => .error "TypeError"

/-- `ToTiff.process`, translated from `slitflow/fig/figure.py`: when a
`scalebar` parameter is present, compute the bar geometry from
`param["limit"]` and draw it with `axes[0].plot`; then rasterize the
figure at `param["dpi"]` via `get_stack`. -/
def ToTiff.process (reqs0 : AxFig) (param : PDict) :
    Except String (AxFig × List (List (List Nat))) := do
  let fig := reqs0
  let fig ←
    if (dict_find param "scalebar").isSome then do
      -- width = param["limit"][1] - param["limit"][0]
      let limitV ← getItem param "limit"
      let l1 ← toRat (← pyindex limitV 1)
      let l0 ← toRat (← pyindex limitV 0)
      let width := l1 - l0
      -- height = param["limit"][3] - param["limit"][2]
      let l3 ← toRat (← pyindex limitV 3)
      let l2 ← toRat (← pyindex limitV 2)
      let height := l3 - l2
      let sbV ← getItem param "scalebar"
      -- left = width * param["scalebar"][1] + param["limit"][0]
      let sb1 ← toRat (← pyindex sbV 1)
      let left := width * sb1 + l0
      -- bottom = height * param["scalebar"][2] + param["limit"][2]
      let sb2 ← toRat (← pyindex sbV 2)
      let bottom := height * sb2 + l2
      let sb0 ← toRat (← pyindex sbV 0)
      let sb3 ← toRat (← pyindex sbV 3)
      let colorL ← toRatList (← pyindex sbV 4)
      pure (fig.plot [left, left + sb0] [bottom, bottom] sb3
        (colorL.map fun x => x / 255))
    else
      pure fig
  let dpiQ ← toRat (← getItem param "dpi")
  let rs := get_stack fig.raster dpiQ
  pure ({ fig with raster := rs.1 }, rs.2)

/-- The artists of the document returned by `process`. -/
def artistsOf (r : Except String (AxFig × List (List (List Nat)))) :
    Option (List Line) :=
  match r with
  | .ok (af, _) => some af.artists
  | .error _ => none

/-- The process-wide matplotlib drawing context: whether the current
figure still holds drawn state. -/
structure PltState where
  hasFigureState : Bool

/-- `plt.clf()`: clear the current figure of the process-wide context. -/
def plt_clf (s : PltState) : PltState :=
  { s with hasFigureState := false }

/-- Modelled from the spec: the generic persisted-object store's save
(`Pickle.save_data` of `slitflow.data`, not under `src/`), which either
succeeds or fails; it does not touch the drawing context. -/
def Pickle.save_data (succeeds : Bool) (s : PltState) :
    Except String Unit × PltState :=
  (if succeeds then .ok () else .error "SaveError", s)

/-- `Figure.save_data`, translated from `slitflow/fig/figure.py`: run the
inherited save, then clear the current figure with `plt.clf()`.  There is
no try/finally: when the inherited save raises, the exception propagates
and `plt.clf()` is not reached. -/
def Figure.save_data (succeeds : Bool) (s : PltState) :
    Except String Unit × PltState :=
  match Pickle.save_data succeeds s with
  | (.ok _, s1) => (.ok (), plt_clf s1)
  | (.error e, s1) => (.error e, s1)

/-- A tiny concrete backend: a 2×2 canvas whose buffer is the 12 bytes
`0, …, 11` at every dpi. -/
def figEx : Fig :=
  { width := 2, height := 2, dpi := 0, render := fun _ => List.range 12 }

/-- A concrete figure document with no artists over `figEx`. -/
def afEx : AxFig :=
  { raster := figEx, artists := [] }

theorem exc_bind_ok {α β : Type} (a : α) (f : α → Except String β) :
    (Except.ok a : Except String α) >>= f = f a := rfl

theorem exc_bind_err {α β : Type} (e : String) (f : α → Except String β) :
    (Except.error e : Except String α) >>= f = .error e := rfl

theorem exc_pure {α : Type} (a : α) :
    (pure a : Except String α) = .ok a := rfl

/-- Evaluation of `set_info` on the fully-populated calibration family:
it raises `ZeroDivisionError` exactly when the pixel extent
`size[0] / 2.54 * dpi` is zero, and otherwise records the pitch. -/
theorem set_info_req1 (l0 l1 s0 d sd : Rat) :
    ToTiff.set_info (req1 l0 l1 s0) (param1 d sd) =
      if s0 / (254 / 100) * d = 0 then .error "ZeroDivisionError"
      else .ok (info1 l0 l1 s0 d sd, param1 d sd) := by
  by_cases h : s0 = 0 ∨ d = 0 <;>
    simp [ToTiff.set_info, req1, param1, info1, getItem, dict_find, dict_set,
      dict_getD, Info.copy_req, Info.add_param, Info.get_param_value,
      Info.get_param, Info.set_split_depth, Value.truthy, Value.isNone,
      pyindex, toRat, pydiv, exc_bind_ok, exc_bind_err, exc_pure, h]

/-- Claim C1: for every `dpi > 0`, physical width `size[0] > 0` and axis
limits with `limit[1] > limit[0]` and `limit[0]` present, the pitch computed
by `set_info` equals `(limit[1] - limit[0]) / (size[0] / 2.54 * dpi)`
exactly. -/
theorem pitch_formula_exact (l0 l1 s0 d sd : Rat)
    (hd : 0 < d) (hs : 0 < s0) (hl : l0 < l1) :
    pitchValOf (ToTiff.set_info (req1 l0 l1 s0) (param1 d sd)) =
      some ((l1 - l0) / (s0 / (254 / 100) * d)) := by
  have hpos : 0 < s0 / (254 / 100) * d :=
    mul_pos (div_pos hs (by norm_num)) hd
  rw [set_info_req1, if_neg hpos.ne']
  rfl

/-- Witness for C1 at `limit = [0, 10, 0, 5]`, `size[0] = 2.54`,
`dpi = 100`. -/
theorem pitch_formula_exact_witness :
    pitchValOf (ToTiff.set_info (req1 0 10 (254 / 100)) (param1 100 0)) =
      some ((10 - 0) / (254 / 100 / (254 / 100) * 100)) :=
  pitch_formula_exact 0 10 (254 / 100) 100 0 (by norm_num) (by norm_num)
    (by norm_num)

/-- Claim C4 is false as stated: with a pixel extent that computes to a
negative value (`size[0] = -1`, `dpi = 100`), `set_info` raises nothing at
all — no `InvalidCalibration`, no error — and happily records a negative
pitch. -/
theorem no_invalid_calibration_check :
    errorOf (ToTiff.set_info (req1 0 10 (-1)) (param1 100 0)) = none ∧
    pitchValOf (ToTiff.set_info (req1 0 10 (-1)) (param1 100 0)) =
      some ((10 - 0) / ((-1) / (254 / 100) * 100)) := by
  rw [set_info_req1,
    if_neg (by norm_num : ¬((-1 : Rat) / (254 / 100) * 100 = 0))]
  exact ⟨rfl, rfl⟩

/-- Claim C4, amended: `set_info` performs no validation of the pixel
extent.  When the pixel extent `size[0] / 2.54 * dpi` is zero the division
itself is executed and fails with `ZeroDivisionError`; when it is negative
no error is raised and a negative pitch is recorded. -/
theorem pixel_extent_unvalidated (l0 l1 s0 d sd : Rat) :
    (s0 / (254 / 100) * d = 0 →
      errorOf (ToTiff.set_info (req1 l0 l1 s0) (param1 d sd)) =
        some "ZeroDivisionError") ∧
    (s0 / (254 / 100) * d < 0 →
      errorOf (ToTiff.set_info (req1 l0 l1 s0) (param1 d sd)) = none ∧
      pitchValOf (ToTiff.set_info (req1 l0 l1 s0) (param1 d sd)) =
        some ((l1 - l0) / (s0 / (254 / 100) * d))) := by
  rw [set_info_req1]
  constructor
  · intro h; rw [if_pos h]; rfl
  · intro h; rw [if_neg h.ne]; exact ⟨rfl, rfl⟩

/-- Witness for the amended C4: a zero pixel extent (`size[0] = 0`) raises
`ZeroDivisionError`; a negative one (`size[0] = -1`) raises nothing. -/
theorem pixel_extent_unvalidated_witness :
    errorOf (ToTiff.set_info (req1 0 10 0) (param1 100 0)) =
      some "ZeroDivisionError" ∧
    errorOf (ToTiff.set_info (req1 0 10 (-1)) (param1 100 0)) = none :=
  ⟨(pixel_extent_unvalidated 0 10 0 100 0).1 (by norm_num),
   ((pixel_extent_unvalidated 0 10 (-1) 100 0).2 (by norm_num)).1⟩

/-- Claim C7: when the caller supplies no `dpi`, the output metadata
contains `dpi = 400` with type tag `int`; when the caller supplies one,
that value is used instead (same type tag). -/
theorem dpi_default_400 (sd d : Rat) :
    dpiEntryOf (ToTiff.set_info [] [("split_depth", .num sd)]) =
      some (.num 400, .str "int") ∧
    dpiEntryOf (ToTiff.set_info []
        [("dpi", .num d), ("split_depth", .num sd)]) =
      some (.num d, .str "int") :=
  ⟨rfl, rfl⟩

/-- Claim C10: `set_info` mutates the caller's parameter dict: a dict
lacking `dpi` contains `dpi = 400` after the call; threading that same
mutated dict into a second call (the shared `param={}` default of the
Python signature) leaves it unchanged, so the entry persists across calls
that omit the argument. -/
theorem set_info_mutates_param (sd : Rat) :
    paramOut (ToTiff.set_info [] [("split_depth", .num sd)]) =
      some [("split_depth", .num sd), ("dpi", .num 400)] ∧
    paramOut (ToTiff.set_info []
        [("split_depth", .num sd), ("dpi", .num 400)]) =
      some [("split_depth", .num sd), ("dpi", .num 400)] :=
  ⟨rfl, rfl⟩

/-- Claim C6 is false as stated: with `limit`, `size` and `length_unit`
all present and `limit[0] = 0` present, but `length_unit` the empty string,
`set_info` succeeds without recording any `pitch` entry: the code tests
Python truthiness of the three inherited values, not their presence. -/
theorem pitch_skipped_for_falsy_length_unit :
    errorOf (ToTiff.set_info req6ex (param1 100 0)) = none ∧
    hasPitch (ToTiff.set_info req6ex (param1 100 0)) = false :=
  ⟨rfl, rfl⟩

/-- Claim C6, amended: over inherited parameters whose `limit`, `size` and
`length_unit` entries are each present or absent, with `limit[0]` a number
or `None` and the `length_unit` string free, `set_info` never raises, and
the output metadata contains a `pitch` key if and only if all three
entries are present with truthy values (for `length_unit`: a nonempty
string) and `limit[0]` is not `None`. -/
theorem pitch_presence_iff_truthy_inputs (hasLimit hasSize : Bool)
    (olu : Option String) (ol0 : Option Rat) :
    errorOf (ToTiff.set_info (req6 hasLimit hasSize olu ol0)
      (param1 100 0)) = none ∧
    (hasPitch (ToTiff.set_info (req6 hasLimit hasSize olu ol0)
        (param1 100 0)) = true ↔
      hasLimit = true ∧ hasSize = true ∧
        (∃ u, olu = some u ∧ u ≠ "") ∧ ∃ q, ol0 = some q) := by
  rcases hasLimit <;> rcases hasSize <;> rcases olu with _ | u <;>
    rcases ol0 with _ | q <;>
    simp [ToTiff.set_info, req6, req6ex, optNum, param1, getItem, dict_find,
      dict_set, dict_getD, Info.copy_req, Info.add_param, Info.get_param_value,
      Info.get_param, Info.set_split_depth, Value.truthy, Value.isNone,
      pyindex, toRat, pydiv, exc_bind_ok, exc_bind_err, exc_pure,
      errorOf, hasPitch]
  by_cases hu : u = "" <;> simp [hu, Info.get_param]

/-- Claim C8: `split_depth` has no default — a parameter dict lacking it
makes `set_info` fail with `KeyError` — and on every successful call all
inherited parameters are copied verbatim to the front of the output
metadata, before the augmentation entries. -/
theorem split_depth_mandatory_and_req_copied :
    (∀ d : Rat, errorOf (ToTiff.set_info [] [("dpi", .num d)]) =
      some "KeyError") ∧
    (∀ req param info p2, ToTiff.set_info req param = .ok (info, p2) →
      ∃ rest, info.params = req ++ rest) := by
  constructor
  · intro d; rfl
  · intro req param info p2 h
    simp only [ToTiff.set_info, bind, Except.bind, pure, Except.pure] at h
    repeat' split at h
    all_goals
      first
      | exact Except.noConfusion h
      | (injection h with hp
         rw [Prod.mk.injEq] at hp
         obtain ⟨h1, h2⟩ := hp
         subst h1
         simp only [Info.set_split_depth, Info.add_param, Info.copy_req,
           List.append_assoc]
         exact ⟨_, rfl⟩)

/-- Witness for C8: the `KeyError` branch at `dpi = 100`, and the copied
inherited parameters of a concrete successful call. -/
theorem split_depth_mandatory_and_req_copied_witness :
    errorOf (ToTiff.set_info [] [("dpi", .num 100)]) = some "KeyError" ∧
    ∃ rest,
      (info1 0 10 1 100 0).params = req1 0 10 1 ++ rest :=
  ⟨split_depth_mandatory_and_req_copied.1 100,
   split_depth_mandatory_and_req_copied.2 (req1 0 10 1) (param1 100 0)
     (info1 0 10 1 100 0) (param1 100 0)
     (by rw [set_info_req1,
       if_neg (by norm_num : ¬((1 : Rat) / (254 / 100) * 100 = 0))])⟩

theorem getD_map_range {α : Type} (f : Nat → α) (n i : Nat) (hi : i < n)
    (d : α) : ((List.range n).map f).getD i d = f i := by
  rw [List.getD_eq_getElem?_getD,
    List.getElem?_eq_getElem (by simpa using hi), List.getElem_map,
    List.getElem_range]
  simp

theorem flipud_getD (m : List (List Nat)) (r : Nat) (hr : r < m.length) :
    (flipud m).getD r [] = m.getD (m.length - 1 - r) [] := by
  rw [flipud, List.getD_eq_getElem?_getD,
    List.getElem?_eq_getElem (by simpa using hr), List.getElem_reverse,
    List.getD_eq_getElem?_getD, List.getElem?_eq_getElem (by omega)]

theorem channelPlane_length (buf : List Nat) (w h k : Nat) :
    (channelPlane buf w h k).length = h := by
  simp [channelPlane]

theorem flip_channel_elem (buf : List Nat) (w h k r c : Nat)
    (hr : r < h) (hc : c < w) :
    ((flipud (channelPlane buf w h k)).getD r []).getD c 0 =
      buf.getD (((h - 1 - r) * w + c) * 3 + k) 0 := by
  have h1 : (flipud (channelPlane buf w h k)).getD r [] =
      (List.range w).map
        fun c => buf.getD ((((h - 1 - r) * w + c) * 3) + k) 0 := by
    rw [flipud_getD _ _ (by simpa [channelPlane_length] using hr),
      channelPlane_length, channelPlane,
      getD_map_range _ _ _ (by omega)]
  rw [h1, getD_map_range _ _ _ hc]

theorem getD_byte_bound (buf : List Nat) (i : Nat)
    (hb : ∀ b ∈ buf, b < 256) : buf.getD i 0 < 256 := by
  rw [List.getD_eq_getElem?_getD]
  cases hm : buf[i]? with
  | none => simp
  | some x =>
    have hx : x ∈ buf := by
      obtain ⟨h1, h2⟩ := List.getElem?_eq_some_iff.mp hm
      exact h2 ▸ List.getElem_mem h1
    simpa using hb x hx

/-- Claim C2: when the backend buffer has the reported `width * height * 3`
bytes, the stack returned by `get_stack` has shape `(3, height, width)`,
each channel `k ∈ {0(R), 1(G), 2(B)}` being the `k`-th plane of the
row-major buffer reshaped to `(height, width, 3)` and vertically flipped
(output row `r` reads buffer row `height - 1 - r`), with every entry an
unsigned 8-bit value. -/
theorem get_stack_shape_channels (fig : Fig) (dpi : Rat)
    (hlen : (fig.render dpi).length = fig.width * fig.height * 3)
    (hbyte : ∀ b ∈ fig.render dpi, b < 256) :
    ((get_stack fig dpi).2).length = 3 ∧
    (∀ ch ∈ (get_stack fig dpi).2, ch.length = fig.height ∧
      ∀ row ∈ ch, row.length = fig.width) ∧
    (∀ k r c, k < 3 → r < fig.height → c < fig.width →
      ((((get_stack fig dpi).2).getD k []).getD r []).getD c 0 =
        (fig.render dpi).getD
          (((fig.height - 1 - r) * fig.width + c) * 3 + k) 0 ∧
      ((((get_stack fig dpi).2).getD k []).getD r []).getD c 0 < 256) := by
  refine ⟨rfl, ?_, ?_⟩
  · intro ch hch
    simp only [get_stack, Fig.set_dpi, Fig.tostring_rgb, Fig.get_width_height,
      List.mem_cons, List.not_mem_nil, or_false] at hch
    rcases hch with h | h | h <;> subst h <;> constructor <;>
      simp [flipud, channelPlane]
  · intro k r c hk hr hc
    have hrc : ∀ j, j < 3 →
        (((get_stack fig dpi).2).getD j []) =
          flipud (channelPlane (fig.render dpi) fig.width fig.height j) := by
      intro j hj
      interval_cases j <;> rfl
    rw [hrc k hk, flip_channel_elem _ _ _ _ _ _ hr hc]
    exact ⟨rfl, getD_byte_bound _ _ hbyte⟩

/-- Witness for C2 on the concrete 2×2 backend `figEx` at `dpi = 100`. -/
theorem get_stack_shape_channels_witness :
    (figEx.render 100).length = figEx.width * figEx.height * 3 ∧
    (((get_stack figEx 100).2).length = 3 ∧
      ((((get_stack figEx 100).2).getD 0 []).getD 0 []).getD 0 0 =
        (figEx.render 100).getD
          (((figEx.height - 1 - 0) * figEx.width + 0) * 3 + 0) 0) := by
  have h := get_stack_shape_channels figEx 100 (by decide)
    (by intro b hb; simp [figEx] at hb; omega)
  exact ⟨by decide, h.1, (h.2.2 0 0 0 (by decide) (by decide) (by decide)).1⟩

/-- Claim C9: rasterizing the same figure twice at the same dpi with no
intervening mutation — the second call receives the figure state left by
the first — returns the bit-identical stack (and figure state): the
conversion is deterministic in its inputs. -/
theorem get_stack_deterministic (fig : Fig) (dpi : Rat) :
    get_stack ((get_stack fig dpi).1) dpi = get_stack fig dpi := rfl

/-- Claim C5 is false as stated: when the underlying save fails, the
exception propagates and `plt.clf()` is never reached, so the process-wide
drawing context is NOT cleared on that exit path. -/
theorem clf_skipped_on_save_failure :
    (Figure.save_data false ⟨true⟩).1 = .error "SaveError" ∧
    (Figure.save_data false ⟨true⟩).2.hasFigureState = true :=
  ⟨rfl, rfl⟩

/-- Claim C5, amended: the drawing context is cleared immediately after a
successful save; when the underlying save fails the exception propagates
and the context is left exactly as it was. -/
theorem clf_after_successful_save_only (s : PltState) :
    (Figure.save_data true s).1 = .ok () ∧
    (Figure.save_data true s).2.hasFigureState = false ∧
    (Figure.save_data false s).1 = .error "SaveError" ∧
    (Figure.save_data false s).2 = s :=
  ⟨rfl, rfl, rfl, rfl⟩

/-- Claim C3: for every axis-limit vector and scale-bar spec
`[length, rel_left, rel_bottom, line_width, color_rgb]`, `process` draws
one horizontal line artist from `(left, bottom)` to `(left + length,
bottom)` with `left = (limit[1] - limit[0]) * rel_left + limit[0]` and
`bottom = (limit[3] - limit[2]) * rel_bottom + limit[2]`, line width
`line_width` and each color component divided by 255; in particular for
`limit = [0, 10, 0, 5]`, `rel_left = 0.1`, `rel_bottom = 0.2`,
`length = 2` the endpoints are `(1, 1)` and `(3, 1)`. -/
theorem scalebar_geometry (af : AxFig)
    (l0 l1 l2 l3 len rl rb lw c0 c1 c2 d : Rat) :
    artistsOf (ToTiff.process af
      [("dpi", .num d),
       ("limit", .vlist [.num l0, .num l1, .num l2, .num l3]),
       ("scalebar", .vlist [.num len, .num rl, .num rb, .num lw,
        .vlist [.num c0, .num c1, .num c2]])]) =
      some (af.artists ++
        [⟨[(l1 - l0) * rl + l0, (l1 - l0) * rl + l0 + len],
          [(l3 - l2) * rb + l2, (l3 - l2) * rb + l2],
          lw, [c0 / 255, c1 / 255, c2 / 255]⟩]) ∧
    artistsOf (ToTiff.process afEx
      [("dpi", .num 400),
       ("limit", .vlist [.num 0, .num 10, .num 0, .num 5]),
       ("scalebar", .vlist [.num 2, .num (1 / 10), .num (2 / 10), .num 1,
        .vlist [.num 255, .num 0, .num 0]])]) =
      some [⟨[1, 3], [1, 1], 1, [1, 0, 0]⟩] := by
  constructor
  · rfl
  · simp [ToTiff.process, afEx, figEx, artistsOf, getItem, dict_find,
      pyindex, toRat, toRatList, List.mapM, List.mapM.loop, AxFig.plot,
      exc_bind_ok, exc_pure]
    norm_num
